import Mathlib

/-!
Verification of the register model and bitfield codec of `final-project.py`,
a driver for a digital-filter simulation device.

The pure codec classes (`Csr`, `Coef`, `Outcap`) and the conversion helper
`twos_comp` are embedded directly.  The `Uad` device session talks to an
external device process; that process is modelled as an abstract state
machine `Dev σ` whose operations mirror the three command-line entry points
of the device binary (`cfg` read, `cfg` write, `sig`, `com`).  Session
methods are embedded as explicit state-passing functions over the session
snapshot record and the device state.  A Python `AttributeError` raised by
`set_csr`/`set_coef`/`set_outcap` when no snapshot exists is embedded as
`Except.error`.
-/

namespace FinalProject

/-- Register byte address of the control/status register. -/
def CSR_ADDR : ℕ := 0x0

/-- Register byte address of the coefficients register. -/
def COEF_ADDR : ℕ := 0x4

/-- Register byte address of the output-capacity register. -/
def OUTCAP_ADDR : ℕ := 0x8

/-- Control/status register snapshot: one field per attribute set by
`Csr.__init__` in the source. -/
structure Csr where
  fen : ℕ
  c0en : ℕ
  c1en : ℕ
  c2en : ℕ
  c3en : ℕ
  halt : ℕ
  sts : ℕ
  ibcnt : ℕ
  ibovf : ℕ
  ibclr : ℕ
  tclr : ℕ
  rnd : ℕ
  icoef : ℕ
  icap : ℕ
  rsvd : ℕ
deriving DecidableEq, Repr

/-- `Csr.__init__(csr_bin)`: extract each field by shift and mask. -/
def Csr.decode (x : ℕ) : Csr where
  fen := (x >>> 0) &&& 0x1
  c0en := (x >>> 1) &&& 0x1
  c1en := (x >>> 2) &&& 0x1
  c2en := (x >>> 3) &&& 0x1
  c3en := (x >>> 4) &&& 0x1
  halt := (x >>> 5) &&& 0x1
  sts := (x >>> 6) &&& 0x3
  ibcnt := (x >>> 8) &&& 0xff
  ibovf := (x >>> 16) &&& 0x1
  ibclr := (x >>> 17) &&& 0x1
  tclr := (x >>> 18) &&& 0x1
  rnd := (x >>> 19) &&& 0x3
  icoef := (x >>> 21) &&& 0x1
  icap := (x >>> 22) &&& 0x1
  rsvd := (x >>> 23) &&& 0xffff

/-- `Csr.encode`: mask each field to the width used by the source and OR
the shifted fields together.  Note the source masks `rsvd` with `0x3ff`
here although `decode` extracted it with a `0xffff` mask. -/
def Csr.encode (c : Csr) : ℕ :=
  ((c.fen &&& 0x1) <<< 0) |||
  ((c.c0en &&& 0x1) <<< 1) |||
  ((c.c1en &&& 0x1) <<< 2) |||
  ((c.c2en &&& 0x1) <<< 3) |||
  ((c.c3en &&& 0x1) <<< 4) |||
  ((c.halt &&& 0x1) <<< 5) |||
  ((c.sts &&& 0x3) <<< 6) |||
  ((c.ibcnt &&& 0xff) <<< 8) |||
  ((c.ibovf &&& 0x1) <<< 16) |||
  ((c.ibclr &&& 0x1) <<< 17) |||
  ((c.tclr &&& 0x1) <<< 18) |||
  ((c.rnd &&& 0x3) <<< 19) |||
  ((c.icoef &&& 0x1) <<< 21) |||
  ((c.icap &&& 0x1) <<< 22) |||
  ((c.rsvd &&& 0x3ff) <<< 23)

/-- Coefficients register snapshot (`Coef.__init__`). -/
structure Coef where
  c0 : ℕ
  c1 : ℕ
  c2 : ℕ
  c3 : ℕ
deriving DecidableEq, Repr

/-- `Coef.__init__(coef_bin)`: four byte-wide slots. -/
def Coef.decode (x : ℕ) : Coef where
  c0 := (x >>> 0) &&& 0xff
  c1 := (x >>> 8) &&& 0xff
  c2 := (x >>> 16) &&& 0xff
  c3 := (x >>> 24) &&& 0xff

/-- `Coef.encode`. -/
def Coef.encode (c : Coef) : ℕ :=
  ((c.c0 &&& 0xff) <<< 0) |||
  ((c.c1 &&& 0xff) <<< 8) |||
  ((c.c2 &&& 0xff) <<< 16) |||
  ((c.c3 &&& 0xff) <<< 24)

/-- Output-capacity register snapshot (`Outcap.__init__`). -/
structure Outcap where
  hcap : ℕ
  lcap : ℕ
  rsvd : ℕ
deriving DecidableEq, Repr

/-- `Outcap.__init__(outcap_bin)`: `rsvd` is extracted with a 16-bit mask. -/
def Outcap.decode (x : ℕ) : Outcap where
  hcap := (x >>> 0) &&& 0xff
  lcap := (x >>> 8) &&& 0xff
  rsvd := (x >>> 16) &&& 0xffff

/-- `Outcap.encode`: note the source masks `rsvd` with `0xff` (8 bits)
although `decode` extracted 16 bits. -/
def Outcap.encode (o : Outcap) : ℕ :=
  ((o.hcap &&& 0xff) <<< 0) |||
  ((o.lcap &&& 0xff) <<< 8) |||
  ((o.rsvd &&& 0xff) <<< 16)

/-- `twos_comp(num)` from the source:
`((num & 0x7F) + (-128 if num >> 7 == 0x1 else 0)) / 64`.
Python float division of these small integers by 64 is exact, so the
result is modelled as a rational number. -/
def twos_comp (num : ℕ) : ℚ :=
  (((num &&& 0x7F : ℕ) : ℤ) + (if num >>> 7 = 0x1 then -128 else 0) : ℤ) / 64

/-- The names of the attributes `Csr.__init__` declares.  Any other name
passed to Python `setattr` creates a fresh attribute that `encode` never
reads. -/
def csrFields : List String :=
  ["fen", "c0en", "c1en", "c2en", "c3en", "halt", "sts", "ibcnt",
   "ibovf", "ibclr", "tclr", "rnd", "icoef", "icap", "rsvd"]

/-- Python `setattr(csr, nm, v)` as used by the `set` and `config` test
branches of `main`.  For a declared attribute it overwrites that field.
For any other name Python silently stores a new attribute on the object;
since `Csr.encode` reads only the declared fields, the register snapshot
is observationally unchanged, which this embedding models by returning
the record unmodified.  In particular no exception is raised. -/
def Csr.setAttr (c : Csr) (nm : String) (v : ℕ) : Csr :=
  if nm == "fen" then { c with fen := v }
  else if nm == "c0en" then { c with c0en := v }
  else if nm == "c1en" then { c with c1en := v }
  else if nm == "c2en" then { c with c2en := v }
  else if nm == "c3en" then { c with c3en := v }
  else if nm == "halt" then { c with halt := v }
  else if nm == "sts" then { c with sts := v }
  else if nm == "ibcnt" then { c with ibcnt := v }
  else if nm == "ibovf" then { c with ibovf := v }
  else if nm == "ibclr" then { c with ibclr := v }
  else if nm == "tclr" then { c with tclr := v }
  else if nm == "rnd" then { c with rnd := v }
  else if nm == "icoef" then { c with icoef := v }
  else if nm == "icap" then { c with icap := v }
  else if nm == "rsvd" then { c with rsvd := v }
  else c

/-- The names of the attributes `Coef.__init__` declares. -/
def coefFields : List String := ["c0", "c1", "c2", "c3"]

/-- Python `setattr(coef, nm, v)` as used by the `config` test branch of
`main`; same conventions as `Csr.setAttr`: an undeclared name silently
stores an attribute `Coef.encode` never reads, leaving the snapshot
observationally unchanged. -/
def Coef.setAttr (c : Coef) (nm : String) (v : ℕ) : Coef :=
  if nm == "c0" then { c with c0 := v }
  else if nm == "c1" then { c with c1 := v }
  else if nm == "c2" then { c with c2 := v }
  else if nm == "c3" then { c with c3 := v }
  else c

/-- The names of the attributes `Outcap.__init__` declares. -/
def outcapFields : List String := ["hcap", "lcap", "rsvd"]

/-- Python `setattr(outcap, nm, v)`; same conventions as `Csr.setAttr`:
an undeclared name silently stores an attribute `Outcap.encode` never
reads, leaving the snapshot observationally unchanged. -/
def Outcap.setAttr (o : Outcap) (nm : String) (v : ℕ) : Outcap :=
  if nm == "hcap" then { o with hcap := v }
  else if nm == "lcap" then { o with lcap := v }
  else if nm == "rsvd" then { o with rsvd := v }
  else o

/-- Abstract model of the external device process over a device-state
type `σ`.  The three operations mirror the binary's `cfg` (read: returns
a status code and the parsed stdout value; write: returns the exit
code), `sig` and `com` entry points.  Each operation may advance the
device state. -/
structure Dev (σ : Type) where
  cfgRead : σ → ℕ → ℤ × ℕ × σ
  cfgWrite : σ → ℕ → ℕ → ℤ × σ
  sig : σ → ℕ → ℕ × σ
  com : σ → String → ℤ × σ

/-- The `Uad` session's mutable snapshot state: `self.csr`, `self.coef`,
`self.outcap`, each `None` until a successful `get`. -/
structure Uad where
  csr : Option Csr
  coef : Option Coef
  outcap : Option Outcap
deriving DecidableEq

/-- `Uad.get_csr`: read the register at `CSR_ADDR`; on a nonzero status
code return `None` and leave the snapshot untouched (expected when the
device is disabled); otherwise decode, store and return the snapshot. -/
def Uad.get_csr {σ : Type} (u : Uad) (d : Dev σ) (s : σ) : Option Csr × Uad × σ :=
  let r := d.cfgRead s CSR_ADDR
  if r.1 ≠ 0 then (none, u, r.2.2)
  else
    let c := Csr.decode r.2.1
    (some c, { u with csr := some c }, r.2.2)

/-- `Uad.get_coef`, analogous to `Uad.get_csr`. -/
def Uad.get_coef {σ : Type} (u : Uad) (d : Dev σ) (s : σ) : Option Coef × Uad × σ :=
  let r := d.cfgRead s COEF_ADDR
  if r.1 ≠ 0 then (none, u, r.2.2)
  else
    let c := Coef.decode r.2.1
    (some c, { u with coef := some c }, r.2.2)

/-- `Uad.get_outcap`, analogous to `Uad.get_csr`. -/
def Uad.get_outcap {σ : Type} (u : Uad) (d : Dev σ) (s : σ) : Option Outcap × Uad × σ :=
  let r := d.cfgRead s OUTCAP_ADDR
  if r.1 ≠ 0 then (none, u, r.2.2)
  else
    let c := Outcap.decode r.2.1
    (some c, { u with outcap := some c }, r.2.2)

/-- `Uad.set_csr`: encode the current snapshot and write it, then call
`get_csr` to refresh, and return the write's exit code.  When no
snapshot exists (`self.csr is None`) Python raises `AttributeError` on
`self.csr.encode()`, modelled as `Except.error`. -/
def Uad.set_csr {σ : Type} (u : Uad) (d : Dev σ) (s : σ) : Except String (ℤ × Uad × σ) :=
  match u.csr with
  | none => .error "AttributeError"
  | some c =>
    let w := d.cfgWrite s CSR_ADDR (Csr.encode c)
    let g := u.get_csr d w.2
    .ok (w.1, g.2.1, g.2.2)

/-- `Uad.set_coef`, analogous to `Uad.set_csr`. -/
def Uad.set_coef {σ : Type} (u : Uad) (d : Dev σ) (s : σ) : Except String (ℤ × Uad × σ) :=
  match u.coef with
  | none => .error "AttributeError"
  | some c =>
    let w := d.cfgWrite s COEF_ADDR (Coef.encode c)
    let g := u.get_coef d w.2
    .ok (w.1, g.2.1, g.2.2)

/-- `Uad.set_outcap`, analogous to `Uad.set_csr`. -/
def Uad.set_outcap {σ : Type} (u : Uad) (d : Dev σ) (s : σ) : Except String (ℤ × Uad × σ) :=
  match u.outcap with
  | none => .error "AttributeError"
  | some c =>
    let w := d.cfgWrite s OUTCAP_ADDR (Outcap.encode c)
    let g := u.get_outcap d w.2
    .ok (w.1, g.2.1, g.2.2)

/-- The result of `Uad.get_reg`, wrapping whichever register class the
chosen branch returns. -/
inductive RegVal
  | ofCsr (c : Csr)
  | ofCoef (c : Coef)
  | ofOutcap (o : Outcap)
deriving DecidableEq

/-- `Uad.get_reg(reg_name)`: dispatch on the register name.  A name that
matches no branch falls off the end of the `if`/`elif` chain, so Python
returns `None` without touching the device. -/
def Uad.get_reg {σ : Type} (u : Uad) (nm : String) (d : Dev σ) (s : σ) :
    Option RegVal × Uad × σ :=
  if nm == "csr" then
    let r := u.get_csr d s
    (r.1.map RegVal.ofCsr, r.2.1, r.2.2)
  else if nm == "coef" then
    let r := u.get_coef d s
    (r.1.map RegVal.ofCoef, r.2.1, r.2.2)
  else if nm == "outcap" then
    let r := u.get_outcap d s
    (r.1.map RegVal.ofOutcap, r.2.1, r.2.2)
  else (none, u, s)

/-- `Uad.set_reg(reg_name)`: dispatch on the register name; an unmatched
name returns `None` (modelled as `.ok (none, ...)`) without touching the
device. -/
def Uad.set_reg {σ : Type} (u : Uad) (nm : String) (d : Dev σ) (s : σ) :
    Except String (Option ℤ × Uad × σ) :=
  if nm == "csr" then
    match u.set_csr d s with
    | .error e => .error e
    | .ok r => .ok (some r.1, r.2.1, r.2.2)
  else if nm == "coef" then
    match u.set_coef d s with
    | .error e => .error e
    | .ok r => .ok (some r.1, r.2.1, r.2.2)
  else if nm == "outcap" then
    match u.set_outcap d s with
    | .error e => .error e
    | .ok r => .ok (some r.1, r.2.1, r.2.2)
  else .ok (none, u, s)

/-- The fixed device address each register name maps to (the constants
at the top of the source used by the matching `get_`/`set_` method). -/
def regAddr (nm : String) : ℕ :=
  if nm == "csr" then CSR_ADDR
  else if nm == "coef" then COEF_ADDR
  else if nm == "outcap" then OUTCAP_ADDR
  else 0

/-- Decode a raw value with the codec class belonging to a register
name, wrapped as a `RegVal`. -/
def decodeReg (nm : String) (v : ℕ) : Option RegVal :=
  if nm == "csr" then some (RegVal.ofCsr (Csr.decode v))
  else if nm == "coef" then some (RegVal.ofCoef (Coef.decode v))
  else if nm == "outcap" then some (RegVal.ofOutcap (Outcap.decode v))
  else none

/-- The encoded form of the session's current snapshot for a register
name, when that snapshot exists. -/
def Uad.snapEncode (u : Uad) (nm : String) : Option ℕ :=
  if nm == "csr" then u.csr.map Csr.encode
  else if nm == "coef" then u.coef.map Coef.encode
  else if nm == "outcap" then u.outcap.map Outcap.encode
  else none

/-- The per-sample drive loop of the `drive` test branch: for each input
sample, in order, call `drive_signal` once and append the response. -/
def driveLoop {σ : Type} (sg : σ → ℕ → ℕ × σ) : σ → List ℕ → List ℕ × σ
  | s, [] => ([], s)
  | s, x :: xs =>
    let r := sg s x
    let rest := driveLoop sg r.2 xs
    (r.1 :: rest.1, rest.2)

/-- Instrumented signal operation: behaves exactly like `sg` on the
underlying device state and additionally appends each sample it is
called with to a call log, so that the order and number of
`drive_signal` invocations is observable. -/
def sigLog {σ : Type} (sg : σ → ℕ → ℕ × σ) : σ × List ℕ → ℕ → ℕ × (σ × List ℕ) :=
  fun p x => ((sg p.1 x).1, ((sg p.1 x).2, p.2 ++ [x]))

/-- The output-file loop of the `drive` test branch: one line
`twos_comp(samp_out)` per response sample, in order. -/
def writeVec : List ℕ → List ℚ
  | [] => []
  | y :: ys => twos_comp y :: writeVec ys

/-- A concrete one-state device whose `cfg` read always fails with
status 1, used to exercise the failure paths at a specific input. -/
def devFail : Dev Unit where
  cfgRead := fun s _ => (1, 0, s)
  cfgWrite := fun s _ _ => (0, s)
  sig := fun s x => (x, s)
  com := fun s _ => (0, s)

/-- A concrete one-state device whose `cfg` read always succeeds with
status 0 and value `0x12345`, used to exercise the success paths at a
specific input. -/
def devOk : Dev Unit where
  cfgRead := fun s _ => (0, 0x12345, s)
  cfgWrite := fun s _ _ => (7, s)
  sig := fun s x => (x, s)
  com := fun s _ => (0, s)

/-! ## Claim theorems -/

/-- Claim C1 (refuted at a concrete input): the round-trip
`encode(decode(x)) == x` fails for the `Outcap` layout.  `decode`
extracts 16 reserved bits at offset 16 but `encode` masks them back with
`0xff`, so the raw value `0x01000000`, whose only set bit lies in the
upper reserved byte, round-trips to `0` instead of itself. -/
theorem claim1_outcap_roundtrip_fails :
    Outcap.encode (Outcap.decode 0x01000000) = 0 ∧
    Outcap.encode (Outcap.decode 0x01000000) ≠ 0x01000000 := by decide

/-- Claim C2 (refuted at a concrete input): the `OutputCapacity`
reserved field, declared 16 bits, is not clamped to 16 bits on encode:
assigning `0x1FFFF` to it and re-encoding then decoding yields `0xFF`
(an 8-bit clamp from the `0xff` mask in `Outcap.encode`), not the
`0xFFFF` the declared width predicts. -/
theorem claim2_outcap_reserved_clamped_to_8_bits :
    (Outcap.decode (Outcap.encode ⟨0, 0, 0x1FFFF⟩)).rsvd = 0xFF ∧
    (Outcap.decode (Outcap.encode ⟨0, 0, 0x1FFFF⟩)).rsvd ≠ 0xFFFF := by decide

/-- Claim C3, counterexample: with every field within its declared
width (reserved declared 10 bits, and `0x200 < 2^10`), `Csr.encode`
can return exactly `2^32`, which is not a `uint32`.  The 10-bit reserved
mask sits at offset 23, so its top bit lands at bit 32. -/
theorem claim3_encode_exceeds_uint32 :
    (0x200 : ℕ) < 2^10 ∧
    Csr.encode ⟨0, 0, 0, 0, 0, 0, 0, 0, 0, 0, 0, 0, 0, 0, 0x200⟩ = 2^32 := by decide

/-- Claim C3, amended: if each `ControlStatus` field fits its declared
bit width and the reserved field additionally fits the 9 bits that
actually remain above offset 23 in a 32-bit word, then `Csr.encode`
returns a value strictly below `2^32`. -/
theorem claim3_encode_fits_uint32 (c : Csr)
    (h1 : c.fen < 2^1) (h2 : c.c0en < 2^1) (h3 : c.c1en < 2^1) (h4 : c.c2en < 2^1)
    (h5 : c.c3en < 2^1) (h6 : c.halt < 2^1) (h7 : c.sts < 2^2) (h8 : c.ibcnt < 2^8)
    (h9 : c.ibovf < 2^1) (h10 : c.ibclr < 2^1) (h11 : c.tclr < 2^1) (h12 : c.rnd < 2^2)
    (h13 : c.icoef < 2^1) (h14 : c.icap < 2^1) (h15 : c.rsvd < 2^9) :
    Csr.encode c < 2^32 := by
  have t : ∀ v m k : ℕ, m * 2^k < 2^32 → (v &&& m) <<< k < 2^32 := by
    intro v m k h
    rw [Nat.shiftLeft_eq]
    exact lt_of_le_of_lt (Nat.mul_le_mul_right _ Nat.and_le_right) h
  have trs : (c.rsvd &&& 0x3ff) <<< 23 < 2^32 := by
    rw [Nat.shiftLeft_eq]
    have hle : c.rsvd &&& 0x3ff ≤ 511 :=
      le_trans Nat.and_le_left (Nat.lt_succ_iff.mp h15)
    calc (c.rsvd &&& 0x3ff) * 2^23 ≤ 511 * 2^23 := Nat.mul_le_mul_right _ hle
      _ < 2^32 := by norm_num
  have b1 := t c.fen 0x1 0 (by norm_num)
  have b2 := t c.c0en 0x1 1 (by norm_num)
  have b3 := t c.c1en 0x1 2 (by norm_num)
  have b4 := t c.c2en 0x1 3 (by norm_num)
  have b5 := t c.c3en 0x1 4 (by norm_num)
  have b6 := t c.halt 0x1 5 (by norm_num)
  have b7 := t c.sts 0x3 6 (by norm_num)
  have b8 := t c.ibcnt 0xff 8 (by norm_num)
  have b9 := t c.ibovf 0x1 16 (by norm_num)
  have b10 := t c.ibclr 0x1 17 (by norm_num)
  have b11 := t c.tclr 0x1 18 (by norm_num)
  have b12 := t c.rnd 0x3 19 (by norm_num)
  have b13 := t c.icoef 0x1 21 (by norm_num)
  have b14 := t c.icap 0x1 22 (by norm_num)
  exact Nat.or_lt_two_pow (Nat.or_lt_two_pow (Nat.or_lt_two_pow (Nat.or_lt_two_pow
    (Nat.or_lt_two_pow (Nat.or_lt_two_pow (Nat.or_lt_two_pow (Nat.or_lt_two_pow
    (Nat.or_lt_two_pow (Nat.or_lt_two_pow (Nat.or_lt_two_pow (Nat.or_lt_two_pow
    (Nat.or_lt_two_pow (Nat.or_lt_two_pow b1 b2) b3) b4) b5) b6) b7) b8) b9) b10)
    b11) b12) b13) b14) trs

/-- Witness for the amended claim C3 at a maximal in-range assignment. -/
theorem claim3_encode_fits_uint32_witness :
    Csr.encode ⟨1, 1, 1, 1, 1, 1, 3, 255, 1, 1, 1, 3, 1, 1, 511⟩ < 2^32 :=
  claim3_encode_fits_uint32 ⟨1, 1, 1, 1, 1, 1, 3, 255, 1, 1, 1, 3, 1, 1, 511⟩
    (by decide) (by decide) (by decide) (by decide) (by decide) (by decide) (by decide)
    (by decide) (by decide) (by decide) (by decide) (by decide) (by decide) (by decide)
    (by decide)

/-- Claim C4 (refuted at a concrete input): field isolation fails for
the `Outcap` layout.  Starting from raw value `0x01000000`, whose
decoded `rsvd` is `0x100`, mutating only `hcap` and re-encoding then
decoding changes the decoded `rsvd` to `0`, because `Outcap.encode`
masks the 16-bit decoded reserved field down to 8 bits. -/
theorem claim4_outcap_mutation_changes_other_field :
    (Outcap.decode 0x01000000).rsvd = 0x100 ∧
    (Outcap.decode (Outcap.encode { Outcap.decode 0x01000000 with hcap := 1 })).rsvd = 0 := by
  decide

/-- Claim C5: `twos_comp` maps `0x00` to `0.0`, `0x40` to `1.0`, `0x7F`
to `1.984375`, `0x80` to `-2.0` and `0xFF` to `-0.015625`, and for every
input in `[0, 255]` the result lies in `[-2.0, 1.984375]`. -/
theorem claim5_twos_comp_values_and_range :
    twos_comp 0x00 = 0 ∧ twos_comp 0x40 = 1 ∧ twos_comp 0x7F = 1.984375 ∧
    twos_comp 0x80 = -2 ∧ twos_comp 0xFF = -0.015625 ∧
    ∀ n : ℕ, n ≤ 255 → -2 ≤ twos_comp n ∧ twos_comp n ≤ 1.984375 := by
  refine ⟨by simp [twos_comp], ?_, by simp [twos_comp]; norm_num, ?_, ?_, ?_⟩
  · have h : (0x40 &&& 0x7F : ℕ) = 0x40 := by decide
    simp [twos_comp, h]
  · have h : (0x80 &&& 0x7F : ℕ) = 0 := by decide
    simp [twos_comp, h]
    norm_num
  · have h : (0xFF &&& 0x7F : ℕ) = 0x7F := by decide
    simp [twos_comp, h]
    norm_num
  · intro n _
    unfold twos_comp
    have ha0 : (0 : ℤ) ≤ ((n &&& 0x7F : ℕ) : ℤ) := Int.ofNat_nonneg _
    have ha : ((n &&& 0x7F : ℕ) : ℤ) ≤ 127 := by
      exact_mod_cast (Nat.and_le_right : n &&& 0x7F ≤ 0x7F)
    have hb : (-128 : ℤ) ≤ (if n >>> 7 = 0x1 then (-128 : ℤ) else 0) ∧
        (if n >>> 7 = 0x1 then (-128 : ℤ) else 0) ≤ 0 := by
      split <;> omega
    have key1 : (-128 : ℤ) ≤
        ((n &&& 0x7F : ℕ) : ℤ) + (if n >>> 7 = 0x1 then (-128 : ℤ) else 0) := by
      omega
    have key2 :
        ((n &&& 0x7F : ℕ) : ℤ) + (if n >>> 7 = 0x1 then (-128 : ℤ) else 0) ≤ 127 := by
      omega
    have h1 : (-128 : ℚ) ≤
        ((((n &&& 0x7F : ℕ) : ℤ) + (if n >>> 7 = 0x1 then (-128 : ℤ) else 0) : ℤ) : ℚ) := by
      exact_mod_cast key1
    have h2 :
        ((((n &&& 0x7F : ℕ) : ℤ) + (if n >>> 7 = 0x1 then (-128 : ℤ) else 0) : ℤ) : ℚ) ≤ 127 := by
      exact_mod_cast key2
    have e : (1.984375 : ℚ) = 127 / 64 := by norm_num
    constructor
    · rw [le_div_iff₀ (by norm_num : (0:ℚ) < 64)]
      linarith
    · rw [e, div_le_div_iff₀ (by norm_num : (0:ℚ) < 64) (by norm_num : (0:ℚ) < 64)]
      linarith

/-- Witness for claim C5's range statement at the concrete input 100. -/
theorem claim5_twos_comp_witness :
    (100 : ℕ) ≤ 255 ∧ (-2 ≤ twos_comp 100 ∧ twos_comp 100 ≤ 1.984375) :=
  ⟨by norm_num, claim5_twos_comp_values_and_range.2.2.2.2.2 100 (by norm_num)⟩

/-- Claim C6: for each register name among `csr`/`coef`/`outcap`, when
the device read reports a nonzero status `get_reg` returns `none` (the
embedding of Python `None`; the source returns before any parsing, so no
exception can be raised on this path), and when the status is zero it
returns the decoded snapshot of the 32-bit value the device produced. -/
theorem claim6_get_absent_on_failure_decoded_on_success
    (σ : Type) (d : Dev σ) (s : σ) (u : Uad) (nm : String)
    (h : nm = "csr" ∨ nm = "coef" ∨ nm = "outcap") :
    ((d.cfgRead s (regAddr nm)).1 ≠ 0 → (u.get_reg nm d s).1 = none) ∧
    ((d.cfgRead s (regAddr nm)).1 = 0 →
      (u.get_reg nm d s).1 = decodeReg nm (d.cfgRead s (regAddr nm)).2.1) := by
  rcases h with h | h | h <;> subst h <;>
    refine ⟨fun h0 => ?_, fun h0 => ?_⟩ <;>
      simp [regAddr] at h0 <;>
      simp [Uad.get_reg, Uad.get_csr, Uad.get_coef, Uad.get_outcap, decodeReg, regAddr, h0]

/-- Witness for claim C6 on a device whose read fails with status 1. -/
theorem claim6_get_witness :
    (devFail.cfgRead () (regAddr "csr")).1 ≠ 0 ∧
    ((Uad.mk none none none).get_reg "csr" devFail ()).1 = none :=
  ⟨by decide,
   (claim6_get_absent_on_failure_decoded_on_success Unit devFail ()
     (Uad.mk none none none) "csr" (Or.inl rfl)).1 (by decide)⟩

/-- Claim C7: for each register name among `csr`/`coef`/`outcap`, if the
session holds a snapshot whose encoding is `w`, then `set_reg` writes
`w` to the device at that register's fixed address, refreshes the
snapshot with a `get_reg` of the same register run against the
post-write device state, and returns the status code of the write (the
first component of `cfgWrite`), not of the refreshing read. -/
theorem claim7_set_encodes_writes_refreshes
    (σ : Type) (d : Dev σ) (s : σ) (u : Uad) (nm : String) (w : ℕ)
    (h : nm = "csr" ∨ nm = "coef" ∨ nm = "outcap")
    (hw : u.snapEncode nm = some w) :
    u.set_reg nm d s =
      Except.ok (some (d.cfgWrite s (regAddr nm) w).1,
        (u.get_reg nm d (d.cfgWrite s (regAddr nm) w).2).2.1,
        (u.get_reg nm d (d.cfgWrite s (regAddr nm) w).2).2.2) := by
  rcases h with h | h | h <;> subst h
  · simp [Uad.snapEncode] at hw
    rcases hc : u.csr with _ | c
    · rw [hc] at hw; simp at hw
    · rw [hc] at hw
      simp at hw
      subst hw
      simp [Uad.set_reg, Uad.set_csr, Uad.get_reg, regAddr, hc]
  · simp [Uad.snapEncode] at hw
    rcases hc : u.coef with _ | c
    · rw [hc] at hw; simp at hw
    · rw [hc] at hw
      simp at hw
      subst hw
      simp [Uad.set_reg, Uad.set_coef, Uad.get_reg, regAddr, hc]
  · simp [Uad.snapEncode] at hw
    rcases hc : u.outcap with _ | c
    · rw [hc] at hw; simp at hw
    · rw [hc] at hw
      simp at hw
      subst hw
      simp [Uad.set_reg, Uad.set_outcap, Uad.get_reg, regAddr, hc]

/-- Witness for claim C7 with a concrete session snapshot and device. -/
theorem claim7_set_witness :
    (Uad.mk (some (Csr.decode 3)) none none).set_reg "csr" devOk () =
      Except.ok (some (devOk.cfgWrite () (regAddr "csr") (Csr.encode (Csr.decode 3))).1,
        ((Uad.mk (some (Csr.decode 3)) none none).get_reg "csr" devOk
          (devOk.cfgWrite () (regAddr "csr") (Csr.encode (Csr.decode 3))).2).2.1,
        ((Uad.mk (some (Csr.decode 3)) none none).get_reg "csr" devOk
          (devOk.cfgWrite () (regAddr "csr") (Csr.encode (Csr.decode 3))).2).2.2) :=
  claim7_set_encodes_writes_refreshes Unit devOk () (Uad.mk (some (Csr.decode 3)) none none)
    "csr" (Csr.encode (Csr.decode 3)) (Or.inl rfl) (by decide)

/-- Claim C8, counterexample: assigning the field name `bogus`, absent
from the `ControlStatus` layout, does not fail: Python `setattr`
silently stores a fresh attribute that `encode` never reads, so the
register snapshot is observationally unchanged — a silent no-op, not a
loud failure. -/
theorem claim8_unknown_field_silently_ignored :
    Csr.setAttr (Csr.decode 0) "bogus" 7 = Csr.decode 0 := by decide

/-- Claim C8, amended: for each of the three registers, calling `set`
for that register without a prior successful `get` for it (its snapshot
still `None`) does fail loudly with an `AttributeError`; but assigning a
field name not present in the declared layout of any of the three
register classes is a silent no-op on the register snapshot rather than
a loud failure. -/
theorem claim8_misuse_behavior :
    (∀ (σ : Type) (d : Dev σ) (s : σ) (u : Uad) (nm : String),
        (nm = "csr" ∨ nm = "coef" ∨ nm = "outcap") → u.snapEncode nm = none →
        u.set_reg nm d s = Except.error "AttributeError") ∧
    (∀ (c : Csr) (nm : String) (v : ℕ), nm ∉ csrFields → Csr.setAttr c nm v = c) ∧
    (∀ (c : Coef) (nm : String) (v : ℕ), nm ∉ coefFields → Coef.setAttr c nm v = c) ∧
    (∀ (o : Outcap) (nm : String) (v : ℕ), nm ∉ outcapFields → Outcap.setAttr o nm v = o) := by
  refine ⟨?_, ?_, ?_, ?_⟩
  · intro σ d s u nm h hw
    rcases h with h | h | h <;> subst h <;>
      simp [Uad.snapEncode] at hw <;>
      simp [Uad.set_reg, Uad.set_csr, Uad.set_coef, Uad.set_outcap, hw]
  · intro c nm v h
    simp [csrFields] at h
    obtain ⟨e1, e2, e3, e4, e5, e6, e7, e8, e9, e10, e11, e12, e13, e14, e15⟩ := h
    simp [Csr.setAttr, e1, e2, e3, e4, e5, e6, e7, e8, e9, e10, e11, e12, e13, e14, e15]
  · intro c nm v h
    simp [coefFields] at h
    obtain ⟨e1, e2, e3, e4⟩ := h
    simp [Coef.setAttr, e1, e2, e3, e4]
  · intro o nm v h
    simp [outcapFields] at h
    obtain ⟨e1, e2, e3⟩ := h
    simp [Outcap.setAttr, e1, e2, e3]

/-- Witness for the amended claim C8 at concrete inputs, exercising the
fail-fast branch through `set_reg` and the silent-no-op branch on each
of the three register classes. -/
theorem claim8_misuse_witness :
    ((Uad.mk none none none).set_reg "coef" devFail () = Except.error "AttributeError") ∧
    (Csr.setAttr (Csr.decode 0) "bogus" 7 = Csr.decode 0) ∧
    (Coef.setAttr (Coef.decode 0) "bogus" 7 = Coef.decode 0) ∧
    (Outcap.setAttr (Outcap.decode 0) "bogus" 7 = Outcap.decode 0) :=
  ⟨claim8_misuse_behavior.1 Unit devFail () (Uad.mk none none none) "coef"
     (Or.inr (Or.inl rfl)) (by decide),
   claim8_misuse_behavior.2.1 (Csr.decode 0) "bogus" 7 (by decide),
   claim8_misuse_behavior.2.2.1 (Coef.decode 0) "bogus" 7 (by decide),
   claim8_misuse_behavior.2.2.2 (Outcap.decode 0) "bogus" 7 (by decide)⟩

/-- The call log of the instrumented drive loop accumulates exactly the
input samples, in order, onto the initial log. -/
theorem driveLoop_log_append {σ : Type} (sg : σ → ℕ → ℕ × σ) :
    ∀ (xs : List ℕ) (s : σ) (lg : List ℕ),
      (driveLoop (sigLog sg) (s, lg) xs).2.2 = lg ++ xs := by
  intro xs
  induction xs with
  | nil => intro s lg; simp [driveLoop]
  | cons x xs ih =>
    intro s lg
    simp [driveLoop, sigLog, ih]

/-- The drive loop produces exactly one response per input sample. -/
theorem driveLoop_length {σ : Type} (sg : σ → ℕ → ℕ × σ) :
    ∀ (xs : List ℕ) (s : σ), (driveLoop sg s xs).1.length = xs.length := by
  intro xs
  induction xs with
  | nil => intro s; simp [driveLoop]
  | cons x xs ih => intro s; simp [driveLoop, ih]

/-- The output-file loop writes the `twos_comp` conversion of each
response, in order. -/
theorem writeVec_map : ∀ l : List ℕ, writeVec l = l.map twos_comp := by
  intro l
  induction l with
  | nil => simp [writeVec]
  | cons y ys ih => simp [writeVec, ih]

/-- Claim C9: in the drive scenario, for every stateful device and every
input sample sequence, the signal operation is invoked exactly once per
input sample in the sequence order (the instrumented call log equals the
input sequence), and the output file holds exactly one
`twos_comp`-converted value per input sample, in the same order as the
responses the loop collected. -/
theorem claim9_drive_per_sample_in_order (σ : Type) (sg : σ → ℕ → ℕ × σ)
    (s : σ) (xs : List ℕ) :
    (driveLoop (sigLog sg) (s, []) xs).2.2 = xs ∧
    (writeVec (driveLoop (sigLog sg) (s, []) xs).1).length = xs.length ∧
    writeVec (driveLoop (sigLog sg) (s, []) xs).1 =
      ((driveLoop (sigLog sg) (s, []) xs).1).map twos_comp := by
  refine ⟨?_, ?_, writeVec_map _⟩
  · simpa using driveLoop_log_append sg xs s []
  · rw [writeVec_map]
    simp [driveLoop_length]

/-- Claim C10: for a register name that is none of `csr`, `coef` or
`outcap`, `get_reg` and `set_reg` fall off the `if`/`elif` chain and
return `None`, leaving both the session and the device state untouched
(the returned device state is the input state, for every device) — the
same `none` result a failing (disabled-device) `get` produces. -/
theorem claim10_unknown_register_noop (σ : Type) (d : Dev σ) (s : σ) (u : Uad)
    (nm : String) (h1 : nm ≠ "csr") (h2 : nm ≠ "coef") (h3 : nm ≠ "outcap") :
    u.get_reg nm d s = (none, u, s) ∧ u.set_reg nm d s = Except.ok (none, u, s) := by
  constructor <;> simp [Uad.get_reg, Uad.set_reg, h1, h2, h3]

/-- Witness for claim C10 at the unknown register name `status`. -/
theorem claim10_unknown_register_witness :
    (Uad.mk none none none).get_reg "status" devOk () = (none, Uad.mk none none none, ()) ∧
    (Uad.mk none none none).set_reg "status" devOk () = Except.ok (none, Uad.mk none none none, ()) :=
  claim10_unknown_register_noop Unit devOk () (Uad.mk none none none) "status"
    (by decide) (by decide) (by decide)

end FinalProject
